import Mathlib

/-!
Shallow embedding of `src/service_monitor.py` (class `ServiceMonitor`).

External effects (the OS process table, socket connects, HTTP requests,
system statistics, the wall clock) are modelled as explicit environment
values passed to the embedded functions; the Python functions themselves
are embedded as pure Lean functions over those environments, keeping the
source's names and control flow.
-/

namespace ServiceMonitor

/-- One `(name, pid)` entry of the live OS process table, as yielded by
`psutil.process_iter(["name", "pid"])`. -/
structure ProcInfo where
  name : String
  pid : Nat
deriving DecidableEq, Repr

/-- Python `str.lower()` restricted to the per-character lowering that
`Char.toLower` performs. -/
def pyLower (s : String) : String :=
  String.mk (s.data.map Char.toLower)

/-- Helper for Python's `needle in hay` on strings: `needle` occurs as a
contiguous substring of `hay`. -/
def strContainsAux (hay needle : List Char) : Bool :=
  match hay with
  | [] => needle.isEmpty
  | c :: t => needle.isPrefixOf (c :: t) || strContainsAux t needle

/-- Python `needle in hay` on strings. -/
def pyIn (needle hay : String) : Bool :=
  strContainsAux hay.data needle.data

/-- The match condition of `check_process` (line 57):
`process_name.lower() in proc.info["name"].lower()`. -/
def matchesProc (process_name : String) (p : ProcInfo) : Bool :=
  pyIn (pyLower process_name) (pyLower p.name)

/-- `check_process` (lines 54-59): scan the process table in order and
return `(True, pid)` for the first entry whose name contains
`process_name` case-insensitively, else `(False, None)`. -/
def check_process (procs : List ProcInfo) (process_name : String) : Bool × Option Nat :=
  match procs with
  | [] => (false, none)
  | p :: rest =>
    if matchesProc process_name p then (true, some p.pid)
    else check_process rest process_name

/-- Outcome of `s.connect_ex(("localhost", port))` under a 1-second
timeout: the connect succeeded, was actively refused, timed out, or
failed with some other nonzero OS error code. -/
inductive ConnectOutcome where
  | established
  | refused
  | timedOut
  | failed (errno : Nat)
deriving DecidableEq, Repr

/-- `socket.connect_ex` returns `0` on success and the (nonzero) OS error
code otherwise; `ECONNREFUSED = 111`, `ETIMEDOUT = 110` on Linux. -/
def connect_ex : ConnectOutcome → Nat
  | .established => 0
  | .refused => 111
  | .timedOut => 110
  | .failed errno => errno

/-- The `with socket.socket(...) as s:` block (line 63): run the body and
record that the context manager closed the socket on every exit path.
The second component is `true` iff the socket was released. -/
def withSocket {α : Type} (body : Unit → α) : α × Bool :=
  (body (), true)

/-- `check_port` (lines 61-65): open a socket in a `with` block, set a
1-second timeout, and report whether `connect_ex` returned `0`.
Returns (port open?, socket released?). -/
def check_port (outcome : ConnectOutcome) : Bool × Bool :=
  withSocket (fun _ => connect_ex outcome == 0)

/-- Outcome of `requests.get(url, timeout=3)`: either a response with a
status code and elapsed time, or a raised `requests.RequestException`
carrying its description string. -/
inductive HttpOutcome where
  | response (status_code : Nat) (elapsed_seconds : Rat)
  | requestException (message : String)
deriving DecidableEq, Repr

/-- `check_endpoint` (lines 67-73): on a response, return
`(status_code == 200, status_code, elapsed)`; on a `RequestException`,
return `(False, str(e), None)`. -/
def check_endpoint : HttpOutcome → Bool × (Nat ⊕ String) × Option Rat
  | .response code elapsed => (code == 200, Sum.inl code, some elapsed)
  | .requestException msg => (false, Sum.inr msg, none)

/-- The four psutil reads of the metrics block (lines 98-102), each of
which can raise `psutil.NoSuchProcess` if the process exited between the
presence check and that read: the `psutil.Process(pid)` lookup,
`cpu_percent()`, `memory_info().rss` (bytes), and `num_threads()`. -/
structure MetricReads where
  lookup : Except Unit Unit
  cpu : Except Unit Rat
  rss : Except Unit Nat
  threads : Except Unit Nat
deriving Repr

/-- One service record of the configuration (`services_config.json` or
the built-in default): `required` is optional because `monitor_service`
reads it with `service.get("required", False)`. -/
structure ServiceSpec where
  name : String
  process_name : Option String
  port : Option Nat
  endpoint : Option String
  required : Option Bool
deriving DecidableEq, Repr

/-- The `status["process"]` sub-dict built by `monitor_service`
(lines 92-104). -/
structure ProcessStatus where
  running : Bool
  pid : Option Nat
  cpu : Option Rat
  memory : Option Rat
  threads : Option Nat
deriving DecidableEq, Repr

/-- The `status["port"]` sub-dict (lines 109-112). `open_` embeds the
Python key `"open"` (a Lean keyword). -/
structure PortStatus where
  open_ : Bool
  number : Nat
deriving DecidableEq, Repr

/-- The `status["endpoint"]` sub-dict (lines 117-122). -/
structure EndpointStatus where
  healthy : Bool
  code : Nat ⊕ String
  latency : Option Rat
  url : String
deriving DecidableEq, Repr

/-- The optional check sub-dicts of a status dict: present iff the
corresponding key was set by `monitor_service`. -/
structure ServiceChecks where
  process : Option ProcessStatus
  port : Option PortStatus
  endpoint : Option EndpointStatus
deriving DecidableEq, Repr

/-- The full per-service status dict produced once per cycle. -/
structure ServiceStatus where
  name : String
  required : Bool
  checks : ServiceChecks
  overall : String
deriving DecidableEq, Repr

/-- The list `checks` built by `determine_overall_status` (lines 130-139),
in source order: process, then port, then endpoint; a key absent from the
status dict contributes nothing. -/
def checksList (s : ServiceChecks) : List Bool :=
  (match s.process with | some p => [p.running] | none => []) ++
    (match s.port with | some p => [p.open_] | none => []) ++
      (match s.endpoint with | some e => [e.healthy] | none => [])

/-- `determine_overall_status` (lines 128-149). -/
def determine_overall_status (s : ServiceChecks) : String :=
  let checks := checksList s
  if checks.isEmpty then "unknown"
  else if checks.all id then "up"
  else if checks.any id then "warning"
  else "down"

/-- The probed external environment of one cycle: the process table, the
metric reads available for each pid, the connect outcome for each port,
and the HTTP outcome for each url. -/
structure ProbeEnv where
  procs : List ProcInfo
  metrics : Nat → MetricReads
  ports : Nat → ConnectOutcome
  http : String → HttpOutcome

/-- The process block of `monitor_service` (lines 90-104): run
`check_process`; if running, read the metrics inside a
`try ... except psutil.NoSuchProcess` that degrades `running` to `False`
on the first failing read, keeping whatever fields were already set. -/
def processStatusOf (env : ProbeEnv) (process_name : String) : ProcessStatus :=
  let rp := check_process env.procs process_name
  let running := rp.1
  let pid := rp.2
  let base : ProcessStatus :=
    { running := running, pid := if running then pid else none,
      cpu := none, memory := none, threads := none }
  if running then
    let reads := env.metrics (pid.getD 0)
    match reads.lookup with
    | .error _ => { base with running := false }
    | .ok _ =>
      match reads.cpu with
      | .error _ => { base with running := false }
      | .ok c =>
        match reads.rss with
        | .error _ => { base with cpu := some c, running := false }
        | .ok r =>
          match reads.threads with
          | .error _ =>
            { base with
              cpu := some c
              memory := some ((r : Rat) / (1024 * 1024))
              running := false }
          | .ok t =>
            { base with
              cpu := some c
              memory := some ((r : Rat) / (1024 * 1024))
              threads := some t }
  else base

/-- `monitor_service` (lines 85-126): build each check sub-dict exactly
when the corresponding key is present in the service spec, then set
`overall` via `determine_overall_status`. -/
def monitor_service (env : ProbeEnv) (service : ServiceSpec) : ServiceStatus :=
  let checks : ServiceChecks :=
    { process := service.process_name.map (fun pn => processStatusOf env pn),
      port := service.port.map (fun p =>
        { open_ := (check_port (env.ports p)).1, number := p }),
      endpoint := service.endpoint.map (fun url =>
        let hce := check_endpoint (env.http url)
        { healthy := hce.1, code := hce.2.1, latency := hce.2.2, url := url }) }
  { name := service.name, required := service.required.getD false,
    checks := checks, overall := determine_overall_status checks }

/-- The system-level readings used by `get_system_stats` and
`save_report`: wall-clock strings and the psutil system counters. -/
structure SysEnv where
  now_str : String
  now_iso : String
  cpu_percent : Rat
  virtual_memory_percent : Rat
  disk_usage_percent : Rat
  time_now : Rat
  boot_time : Rat
deriving DecidableEq, Repr

/-- The dict returned by `get_system_stats` (lines 75-83). -/
structure SystemStats where
  timestamp : String
  cpu : Rat
  memory : Rat
  disk : Rat
  uptime : Rat
deriving DecidableEq, Repr

/-- `get_system_stats` (lines 75-83). -/
def get_system_stats (se : SysEnv) : SystemStats :=
  { timestamp := se.now_str, cpu := se.cpu_percent,
    memory := se.virtual_memory_percent, disk := se.disk_usage_percent,
    uptime := se.time_now - se.boot_time }

/-- `deque(maxlen=100).append` generalised over the capacity: append on
the right, silently dropping from the left while over capacity. -/
def dequePush {α : Type} (cap : Nat) (buf : List α) (x : α) : List α :=
  let b := buf ++ [x]
  b.drop (b.length - cap)

/-- The contents of one service's history deque after pushing `xs` in
order into an initially empty `deque(maxlen=cap)` (line 15 creates the
deque, line 196 appends once per cycle). -/
def pushAll {α : Type} (cap : Nat) (xs : List α) : List α :=
  xs.foldl (dequePush cap) []

/-- The `while self.running` loop of `run` (lines 189-199), abstracted
over the sequence of values the `running` flag has at successive cycle
boundaries: each iteration first reads the flag; if it is true the cycle
probes every service, otherwise the loop exits and never probes again.
Returns the list of per-cycle status lists actually produced. -/
def runTrace (env : ProbeEnv) (services : List ServiceSpec) :
    List Bool → List (List ServiceStatus)
  | [] => []
  | f :: rest =>
    if f then services.map (monitor_service env) :: runTrace env services rest
    else []

/-- How reading `services_config.json` went: the file was missing
(`FileNotFoundError`), unparseable (`json.JSONDecodeError`), or parsed
to a service list. -/
inductive ConfigReadResult where
  | fileNotFound
  | jsonDecodeError
  | parsed (cfg : List ServiceSpec)
deriving DecidableEq, Repr

/-- The `default_config` literal of `load_config` (lines 25-45). -/
def default_config : List ServiceSpec :=
  [ { name := "Web Service", process_name := some "python", port := some 5000,
      endpoint := some "http://localhost:5000/health", required := some true },
    { name := "Database", process_name := some "postgres", port := some 5432,
      endpoint := none, required := some true },
    { name := "Cache", process_name := some "redis-server", port := some 6379,
      endpoint := none, required := some false } ]

/-- `load_config` (lines 23-52): return the parsed file, or on
`FileNotFoundError` / `json.JSONDecodeError` print a warning and return
`default_config`. The boolean records whether the warning was printed. -/
def load_config : ConfigReadResult → List ServiceSpec × Bool
  | .parsed cfg => (cfg, false)
  | .fileNotFound => (default_config, true)
  | .jsonDecodeError => (default_config, true)

/-- The monitor's mutable state relevant to `save_report`: the configured
services and the per-service history deques (`self.history`). -/
structure MonitorState where
  services : List ServiceSpec
  history : String → List ServiceStatus

/-- The report dict written by `save_report` (lines 206-210). -/
structure Report where
  timestamp : String
  system : SystemStats
  services : List ServiceStatus
deriving DecidableEq, Repr

/-- `save_report` (lines 204-215): a fresh `monitor_service` pass over
`self.services` plus fresh system stats and a timestamp; `self.history`
is not consulted. -/
def save_report (st : MonitorState) (env : ProbeEnv) (se : SysEnv) : Report :=
  { timestamp := se.now_iso,
    system := get_system_stats se,
    services := st.services.map (monitor_service env) }

/-- A concrete process table for exercising the process-exit race: one
process whose name matches the default "python" pattern. -/
def raceProcs : List ProcInfo :=
  [{ name := "python3", pid := 42 }]

/-- Concrete metric reads in which the process vanished between the
`cpu_percent()` read and the `memory_info()` read. -/
def raceMetrics : Nat → MetricReads := fun _ =>
  { lookup := Except.ok (), cpu := Except.ok 7, rss := Except.error (),
    threads := Except.ok 3 }

/-- A concrete probe environment exhibiting the exit race. -/
def raceEnv : ProbeEnv :=
  { procs := raceProcs, metrics := raceMetrics,
    ports := fun _ => ConnectOutcome.refused,
    http := fun _ => HttpOutcome.requestException "connection refused" }

/-- A concrete process-only service spec. -/
def raceSvc : ServiceSpec :=
  { name := "Web Service", process_name := some "python", port := none,
    endpoint := none, required := some true }

/-! Theorems -/

/-- When `check_process` found a pid, `processStatusOf` is determined by
which of the four metric reads is the first to raise `NoSuchProcess`:
any raise degrades `running` to `false` while keeping the already-set
fields (including the stale pid). -/
theorem processStatusOf_found (env : ProbeEnv) (pn : String) (pid : Nat)
    (hfound : check_process env.procs pn = (true, some pid)) :
    processStatusOf env pn =
      match (env.metrics pid).lookup with
      | .error _ =>
        { running := false, pid := some pid, cpu := none, memory := none,
          threads := none }
      | .ok _ =>
        match (env.metrics pid).cpu with
        | .error _ =>
          { running := false, pid := some pid, cpu := none, memory := none,
            threads := none }
        | .ok c =>
          match (env.metrics pid).rss with
          | .error _ =>
            { running := false, pid := some pid, cpu := some c, memory := none,
              threads := none }
          | .ok r =>
            match (env.metrics pid).threads with
            | .error _ =>
              { running := false, pid := some pid, cpu := some c,
                memory := some ((r : Rat) / (1024 * 1024)), threads := none }
            | .ok t =>
              { running := true, pid := some pid, cpu := some c,
                memory := some ((r : Rat) / (1024 * 1024)), threads := some t } := by
  unfold processStatusOf
  rw [hfound]
  simp only [Option.getD_some, if_true]

theorem any_id_false_iff (l : List Bool) :
    l.any id = false ↔ l.all (fun b => !b) = true := by
  simp [List.any_eq_false, List.all_eq_true]

/-- Claim C1: `determine_overall_status` returns `"unknown"` when no
process/port/endpoint checks are present, `"up"` when every present check
is true, `"down"` when every present check is false, and `"warning"`
otherwise; the verdict is a function of the list of present checks only,
so absent checks never influence it. -/
theorem determine_overall_status_spec (s : ServiceChecks) :
    determine_overall_status s =
      if (checksList s).isEmpty then "unknown"
      else if (checksList s).all id then "up"
      else if (checksList s).all (fun b => !b) then "down"
      else "warning" := by
  show (if (checksList s).isEmpty then "unknown"
      else if (checksList s).all id then "up"
      else if (checksList s).any id then "warning"
      else "down") = _
  by_cases he : (checksList s).isEmpty
  · simp [he]
  · by_cases ha : (checksList s).all id
    · simp [he, ha]
    · by_cases hn : (checksList s).all (fun b => !b)
      · have h0 : (checksList s).any id = false := (any_id_false_iff _).mpr hn
        simp [he, ha, hn, h0]
      · have h1 : ¬ ((checksList s).any id = false) :=
          fun h => hn ((any_id_false_iff _).mp h)
        have h2 : (checksList s).any id = true := by
          cases h : (checksList s).any id
          · exact absurd h h1
          · rfl
        simp [he, ha, hn, h2]

/-- Claim C3: when the configuration file is missing
(`FileNotFoundError`) or unparseable (`json.JSONDecodeError`),
`load_config` does not fail: it warns and returns the built-in default
sequence of exactly three services named "Web Service", "Database" and
"Cache". -/
theorem load_config_fallback (r : ConfigReadResult) :
    (r = ConfigReadResult.fileNotFound ∨ r = ConfigReadResult.jsonDecodeError) →
    load_config r = (default_config, true) ∧
    default_config.length = 3 ∧
    default_config.map ServiceSpec.name = ["Web Service", "Database", "Cache"] := by
  rintro (rfl | rfl) <;> exact ⟨rfl, rfl, rfl⟩

/-- Witness for C3 at the concrete input `fileNotFound`. -/
theorem load_config_fallback_witness :
    load_config ConfigReadResult.fileNotFound = (default_config, true) ∧
    default_config.length = 3 ∧
    default_config.map ServiceSpec.name = ["Web Service", "Database", "Cache"] :=
  load_config_fallback ConfigReadResult.fileNotFound (Or.inl rfl)

/-- Claim C4: `check_endpoint` reports healthy exactly when the GET
produced a response with status code 200; on a transport failure
(`requests.RequestException`) it returns healthy = false, the error
description string in the code field, and no latency — the exception is
caught, never propagated. -/
theorem check_endpoint_spec (o : HttpOutcome) (msg : String) :
    ((check_endpoint o).1 = true ↔ ∃ l, o = HttpOutcome.response 200 l) ∧
    check_endpoint (HttpOutcome.requestException msg) =
      (false, Sum.inr msg, none) := by
  refine ⟨?_, rfl⟩
  cases o with
  | response code elapsed =>
    constructor
    · intro h
      have hc : code = 200 := by
        have := h
        simp [check_endpoint] at this
        exact this
      exact ⟨elapsed, by rw [hc]⟩
    · rintro ⟨l, hl⟩
      cases hl
      rfl
  | requestException m =>
    constructor
    · intro h
      exact absurd h (by simp [check_endpoint])
    · rintro ⟨l, hl⟩
      cases hl

/-- Witness for C4 at a 200 response and at a timeout exception. -/
theorem check_endpoint_spec_witness :
    (check_endpoint (HttpOutcome.response 200 1)).1 = true ∧
    check_endpoint (HttpOutcome.requestException "HTTPConnectionPool: timeout") =
      (false, Sum.inr "HTTPConnectionPool: timeout", none) :=
  ⟨((check_endpoint_spec (HttpOutcome.response 200 1) "HTTPConnectionPool: timeout").1).mpr
      ⟨1, rfl⟩,
    (check_endpoint_spec (HttpOutcome.response 200 1) "HTTPConnectionPool: timeout").2⟩

/-- Claim C5: `check_port` answers true only for a successful connect
(`connect_ex` returning 0): an actively refused connection and a timed
out one both yield false, as does any other nonzero error code; and the
`with` block releases the socket on every exit path. -/
theorem check_port_spec :
    check_port ConnectOutcome.established = (true, true) ∧
    check_port ConnectOutcome.refused = (false, true) ∧
    check_port ConnectOutcome.timedOut = (false, true) ∧
    (∀ e, e ≠ 0 → check_port (ConnectOutcome.failed e) = (false, true)) ∧
    (∀ o, (check_port o).2 = true) := by
  refine ⟨rfl, rfl, rfl, ?_, ?_⟩
  · intro e he
    simp [check_port, withSocket, connect_ex, he]
  · intro o
    cases o <;> rfl

/-- Witness for C5 at a refused connect and a concrete nonzero errno. -/
theorem check_port_spec_witness :
    check_port ConnectOutcome.refused = (false, true) ∧
    check_port (ConnectOutcome.failed 113) = (false, true) :=
  ⟨check_port_spec.2.1, check_port_spec.2.2.2.1 113 (by decide)⟩

theorem pushAll_drop {α : Type} (cap : Nat) (xs : List α) :
    pushAll cap xs = xs.drop (xs.length - cap) := by
  induction xs using List.reverseRecOn with
  | nil => simp [pushAll]
  | append_singleton ys y ih =>
    have hstep : pushAll cap (ys ++ [y]) = dequePush cap (pushAll cap ys) y := by
      simp [pushAll, List.foldl_append]
    rw [hstep, ih, dequePush]
    simp only [List.length_append, List.length_drop, List.length_singleton,
      List.drop_append_eq_append_drop, List.drop_drop]
    have h1 : ys.length - cap + (ys.length - (ys.length - cap) + 1 - cap)
        = ys.length + 1 - cap := by omega
    have h2 : ys.length - (ys.length - cap) + 1 - cap - (ys.length - (ys.length - cap))
        = ys.length + 1 - cap - ys.length := by omega
    rw [h1, h2]

/-- Claim C2: pushing any sequence of statuses into an initially empty
per-service `deque(maxlen=100)` leaves at most 100 entries; the buffer is
exactly the most recent 100 pushes in push order (the suffix of the push
sequence), and once more than 100 distinct statuses have been pushed the
oldest pushed ones are no longer in the buffer. -/
theorem history_ring_spec {α : Type} (xs : List α) :
    (pushAll 100 xs).length ≤ 100 ∧
    pushAll 100 xs = xs.drop (xs.length - 100) ∧
    (100 < xs.length → xs.Nodup →
      ∀ a ∈ xs.take (xs.length - 100), a ∉ pushAll 100 xs) := by
  refine ⟨?_, pushAll_drop 100 xs, ?_⟩
  · rw [pushAll_drop]
    simp only [List.length_drop]
    omega
  · intro hlen hnd a hmem hmem2
    rw [pushAll_drop] at hmem2
    have hdisj := List.disjoint_take_drop hnd (le_refl (xs.length - 100))
    exact hdisj hmem hmem2

/-- Witness for C2: 101 distinct pushes keep exactly the last 100 and
evict the first. -/
theorem history_ring_spec_witness :
    (pushAll 100 (List.range 101)).length ≤ 100 ∧
    pushAll 100 (List.range 101) = (List.range 101).drop 1 ∧
    (0 : Nat) ∉ pushAll 100 (List.range 101) := by
  have h := history_ring_spec (List.range 101)
  refine ⟨h.1, ?_, ?_⟩
  · have h2 := h.2.1
    simpa using h2
  · exact h.2.2 (by simp) (List.nodup_range 101) 0 (by decide)

/-- Claim C6: when the process found by `check_process` exits between the
presence check and any of the metric reads (the `psutil.NoSuchProcess`
race), `monitor_service` still returns a status whose process check has
`running = false`: the failure is absorbed, not propagated, and the
cycle continues (`monitor_service` is total). -/
theorem process_exit_race_degrades (env : ProbeEnv) (svc : ServiceSpec) (pn : String)
    (pid : Nat)
    (hpn : svc.process_name = some pn)
    (hfound : check_process env.procs pn = (true, some pid))
    (hfail : (env.metrics pid).lookup = Except.error () ∨
      (env.metrics pid).cpu = Except.error () ∨
      (env.metrics pid).rss = Except.error () ∨
      (env.metrics pid).threads = Except.error ()) :
    ∃ p : ProcessStatus, (monitor_service env svc).checks.process = some p ∧
      p.running = false := by
  refine ⟨processStatusOf env pn, by simp [monitor_service, hpn], ?_⟩
  rw [processStatusOf_found env pn pid hfound]
  cases hl : (env.metrics pid).lookup with
  | error u => simp [hl]
  | ok u =>
    cases hc : (env.metrics pid).cpu with
    | error v => simp [hl, hc]
    | ok c =>
      cases hr : (env.metrics pid).rss with
      | error v => simp [hl, hc, hr]
      | ok r =>
        cases ht : (env.metrics pid).threads with
        | error v => simp [hl, hc, hr, ht]
        | ok t =>
          rcases hfail with h | h | h | h <;> simp_all

/-- Witness for C6: in `raceEnv` the memory read raises, and the
resulting process check is degraded to not running. -/
theorem process_exit_race_degrades_witness :
    ∃ p : ProcessStatus, (monitor_service raceEnv raceSvc).checks.process = some p ∧
      p.running = false :=
  process_exit_race_degrades raceEnv raceSvc "python" 42 rfl (by decide)
    (Or.inr (Or.inr (Or.inl rfl)))

/-- Claim C7: `check_process` returns `(true, pid)` for the first process
in scan order whose name contains the given name as a case-insensitive
substring (`List.find?` over the table), and `(false, none)` exactly when
no process name contains it. -/
theorem check_process_spec (procs : List ProcInfo) (pn : String) :
    (check_process procs pn =
      match procs.find? (matchesProc pn) with
      | some p => (true, some p.pid)
      | none => (false, none)) ∧
    (check_process procs pn = (false, none) ↔
      ∀ p ∈ procs, matchesProc pn p = false) := by
  have heq : check_process procs pn =
      match procs.find? (matchesProc pn) with
      | some p => (true, some p.pid)
      | none => (false, none) := by
    induction procs with
    | nil => rfl
    | cons p rest ih =>
      by_cases h : matchesProc pn p
      · simp [check_process, h, List.find?_cons_of_pos _ h]
      · simp [check_process, h, List.find?_cons_of_neg _ h, ih]
  refine ⟨heq, ?_, ?_⟩
  · intro h p hp
    by_contra hmatch
    have hmatch2 : matchesProc pn p = true := by
      cases hm : matchesProc pn p
      · exact absurd hm hmatch
      · rfl
    cases hf : procs.find? (matchesProc pn) with
    | some q =>
      rw [heq, hf] at h
      exact absurd (congrArg Prod.fst h) (by simp)
    | none =>
      exact (List.find?_eq_none.mp hf p hp) hmatch2
  · intro hall
    rw [heq, List.find?_eq_none.mpr (fun x hx => by simp [hall x hx])]

/-- Witness for C7: the first of two matching entries wins. -/
theorem check_process_spec_witness :
    check_process
      [{ name := "systemd", pid := 1 }, { name := "Python3", pid := 42 },
        { name := "python", pid := 43 }] "python" = (true, some 42) := by
  rw [(check_process_spec
    [{ name := "systemd", pid := 1 }, { name := "Python3", pid := 42 },
      { name := "python", pid := 43 }] "python").1]
  decide

/-- Claim C8: the poll loop probes exactly while the `running` flag reads
true: the trace of executed cycles is one probe pass per leading true
flag read, so a false read at cycle boundary `i` means at most `i` cycles
ever ran — after the flag goes false nothing is probed again. -/
theorem run_loop_stops (env : ProbeEnv) (svcs : List ServiceSpec) (flags : List Bool) :
    runTrace env svcs flags =
      (flags.takeWhile id).map (fun _ => svcs.map (monitor_service env)) ∧
    (∀ i, ∀ h : i < flags.length, flags.get ⟨i, h⟩ = false →
      (runTrace env svcs flags).length ≤ i) := by
  induction flags with
  | nil =>
    refine ⟨rfl, ?_⟩
    intro i h
    exact absurd h (by simp)
  | cons f rest ih =>
    cases f with
    | false =>
      refine ⟨by simp [runTrace], ?_⟩
      intro i h hf
      simp [runTrace]
    | true =>
      refine ⟨by simp [runTrace, ih.1], ?_⟩
      intro i h hf
      match i with
      | 0 => exact absurd hf (by simp)
      | Nat.succ j =>
        have hj : j < rest.length := by simpa using h
        have hrest := ih.2 j hj (by simpa using hf)
        have hlen : (runTrace env svcs (true :: rest)).length
            = (runTrace env svcs rest).length + 1 := by
          simp [runTrace]
        omega

/-- Witness for C8: with flag reads true, false, true, only the first
cycle runs. -/
theorem run_loop_stops_witness :
    (runTrace raceEnv [raceSvc] [true, false, true]).length ≤ 1 :=
  (run_loop_stops raceEnv [raceSvc] [true, false, true]).2 1 (by decide) (by decide)

/-- Claim C9: `save_report` performs a fresh probe pass and never reads
the history ring: reports are identical under any change of the stored
history, and two reports taken at different times over the same probed
environment have identical service lists — they can differ only in
timestamp and system statistics. -/
theorem save_report_spec (svcs : List ServiceSpec)
    (h1 h2 : String → List ServiceStatus) (env : ProbeEnv) (se1 se2 : SysEnv) :
    save_report ⟨svcs, h1⟩ env se1 = save_report ⟨svcs, h2⟩ env se1 ∧
    (save_report ⟨svcs, h1⟩ env se1).services =
      (save_report ⟨svcs, h2⟩ env se2).services :=
  ⟨rfl, rfl⟩

/-- Claim C10: when the exit race fires, the degraded process record
keeps the stale pid of the exited process — `running = false` together
with a non-`none` pid — and when the failing read is `memory_info` the
already-read cpu value stays populated while memory stays empty. -/
theorem race_keeps_stale_pid (env : ProbeEnv) (svc : ServiceSpec) (pn : String)
    (pid : Nat) (c : Rat)
    (hpn : svc.process_name = some pn)
    (hfound : check_process env.procs pn = (true, some pid))
    (hfail : (env.metrics pid).lookup = Except.error () ∨
      (env.metrics pid).cpu = Except.error () ∨
      (env.metrics pid).rss = Except.error () ∨
      (env.metrics pid).threads = Except.error ()) :
    ∃ p : ProcessStatus, (monitor_service env svc).checks.process = some p ∧
      p.running = false ∧ p.pid = some pid ∧
      ((env.metrics pid).lookup = Except.ok () →
        (env.metrics pid).cpu = Except.ok c →
        (env.metrics pid).rss = Except.error () →
        p.cpu = some c ∧ p.memory = none) := by
  refine ⟨processStatusOf env pn, by simp [monitor_service, hpn], ?_⟩
  rw [processStatusOf_found env pn pid hfound]
  cases hl : (env.metrics pid).lookup with
  | error u =>
    refine ⟨by simp, by simp, ?_⟩
    intro hlok
    simp at hlok
  | ok u =>
    cases hc : (env.metrics pid).cpu with
    | error v =>
      refine ⟨by simp, by simp, ?_⟩
      intro _ hcok
      simp at hcok
    | ok c0 =>
      cases hr : (env.metrics pid).rss with
      | error v =>
        refine ⟨by simp, by simp, ?_⟩
        intro _ hcok _
        have h0 : c0 = c := by simpa using hcok
        simp [h0]
      | ok r =>
        cases ht : (env.metrics pid).threads with
        | error v =>
          refine ⟨by simp, by simp, ?_⟩
          intro _ _ hrerr
          simp at hrerr
        | ok t =>
          rcases hfail with h | h | h | h <;> simp_all

/-- Witness for C10: in `raceEnv` the degraded record keeps pid 42 and
the cpu reading 7, with memory unset. -/
theorem race_keeps_stale_pid_witness :
    ∃ p : ProcessStatus, (monitor_service raceEnv raceSvc).checks.process = some p ∧
      p.running = false ∧ p.pid = some 42 ∧ p.cpu = some 7 ∧ p.memory = none := by
  obtain ⟨p, h1, h2, h3, h4⟩ := race_keeps_stale_pid raceEnv raceSvc "python" 42 7
    rfl (by decide) (Or.inr (Or.inr (Or.inl rfl)))
  obtain ⟨hc, hm⟩ := h4 rfl rfl rfl
  exact ⟨p, h1, h2, h3, hc, hm⟩

end ServiceMonitor
